import Mathlib

/-!
Verification of the residual layer of COLMAP's bundle-adjustment core
(`src/base/cost_functions.h`), shallowly embedded over the exact field ℚ.

The four cost functors are translated statement by statement from the C++
source.  The external rotation/composition capability (the `ceres` rotation
functions) and the camera projection capability are not part of the
repository: the rotation functions are modelled from the spec's contract
(standard unit-quaternion rotation algebra, no internal renormalization),
and the camera model is an arbitrary function parameter, as in the source
where it is a template parameter with a black-box `WorldToImage`.
-/

namespace Colmap

/-- A 2-vector of rationals (`Eigen::Vector2d` in the source). -/
structure Vec2 where
  x : ℚ
  y : ℚ
  deriving DecidableEq, Repr

/-- A 3-vector of rationals (`T[3]` buffers and `Eigen::Vector3d`). -/
structure Vec3 where
  x : ℚ
  y : ℚ
  z : ℚ
  deriving DecidableEq, Repr

/-- A quaternion stored in `(w, x, y, z)` order, matching the `qvec[0..3]`
layout used by the ceres rotation routines. -/
structure Quat where
  w : ℚ
  x : ℚ
  y : ℚ
  z : ℚ
  deriving DecidableEq, Repr

/-- A 3×3 matrix of rationals, with entries listed row by row
(`Eigen::Matrix<T, 3, 3>` in the source). -/
structure Mat3 where
  m00 : ℚ
  m01 : ℚ
  m02 : ℚ
  m10 : ℚ
  m11 : ℚ
  m12 : ℚ
  m20 : ℚ
  m21 : ℚ
  m22 : ℚ
  deriving DecidableEq, Repr

/-- Componentwise vector addition, used for the `+=` translation steps. -/
def Vec3.add (a b : Vec3) : Vec3 :=
  ⟨a.x + b.x, a.y + b.y, a.z + b.z⟩

/-- Scalar multiple of a 3-vector. -/
def Vec3.smul (s : ℚ) (v : Vec3) : Vec3 :=
  ⟨s * v.x, s * v.y, s * v.z⟩

/-- Dot product of two 3-vectors. -/
def Vec3.dot (a b : Vec3) : ℚ :=
  a.x * b.x + a.y * b.y + a.z * b.z

/-- Matrix product of two 3×3 matrices (`Eigen` operator `*`). -/
def Mat3.mul (A B : Mat3) : Mat3 :=
  ⟨A.m00 * B.m00 + A.m01 * B.m10 + A.m02 * B.m20,
   A.m00 * B.m01 + A.m01 * B.m11 + A.m02 * B.m21,
   A.m00 * B.m02 + A.m01 * B.m12 + A.m02 * B.m22,
   A.m10 * B.m00 + A.m11 * B.m10 + A.m12 * B.m20,
   A.m10 * B.m01 + A.m11 * B.m11 + A.m12 * B.m21,
   A.m10 * B.m02 + A.m11 * B.m12 + A.m12 * B.m22,
   A.m20 * B.m00 + A.m21 * B.m10 + A.m22 * B.m20,
   A.m20 * B.m01 + A.m21 * B.m11 + A.m22 * B.m21,
   A.m20 * B.m02 + A.m21 * B.m12 + A.m22 * B.m22⟩

/-- Transpose of a 3×3 matrix (`Eigen .transpose()`). -/
def Mat3.transpose (A : Mat3) : Mat3 :=
  ⟨A.m00, A.m10, A.m20, A.m01, A.m11, A.m21, A.m02, A.m12, A.m22⟩

/-- Matrix–vector product (`Eigen` matrix times column vector). -/
def Mat3.mulVec (A : Mat3) (v : Vec3) : Vec3 :=
  ⟨A.m00 * v.x + A.m01 * v.y + A.m02 * v.z,
   A.m10 * v.x + A.m11 * v.y + A.m12 * v.z,
   A.m20 * v.x + A.m21 * v.y + A.m22 * v.z⟩

/-- Modelled from the spec: the external rotation capability
`rotateVectorByUnitQuaternion(q, v)` (`ceres::UnitQuaternionRotatePoint`),
which is not part of this repository.  Per §6 of the spec it must satisfy
standard quaternion-rotation algebra with `q` assumed unit-norm by the
caller and no internal renormalization; this is the standard expansion of
`q v q⁻¹` for a unit quaternion. -/
def quatRotate (q : Quat) (pt : Vec3) : Vec3 :=
  let t2 := q.w * q.x
  let t3 := q.w * q.y
  let t4 := q.w * q.z
  let t5 := -q.x * q.x
  let t6 := q.x * q.y
  let t7 := q.x * q.z
  let t8 := -q.y * q.y
  let t9 := q.y * q.z
  let t1 := -q.z * q.z
  ⟨2 * ((t8 + t1) * pt.x + (t6 - t4) * pt.y + (t3 + t7) * pt.z) + pt.x,
   2 * ((t4 + t6) * pt.x + (t5 + t1) * pt.y + (t9 - t2) * pt.z) + pt.y,
   2 * ((t7 - t3) * pt.x + (t2 + t9) * pt.y + (t5 + t8) * pt.z) + pt.z⟩

/-- Modelled from the spec: the external composition capability
`quaternionProduct(qa, qb)` (`ceres::QuaternionProduct`), not part of this
repository; the standard Hamilton product in `(w, x, y, z)` layout. -/
def quatProduct (z w : Quat) : Quat :=
  ⟨z.w * w.w - z.x * w.x - z.y * w.y - z.z * w.z,
   z.w * w.x + z.x * w.w + z.y * w.z - z.z * w.y,
   z.w * w.y - z.x * w.z + z.y * w.w + z.z * w.x,
   z.w * w.z + z.x * w.y - z.y * w.x + z.z * w.w⟩

/-- Modelled from the spec: the external conversion capability
`quaternionToRotationMatrix(q)` (`ceres::QuaternionToRotation`), not part
of this repository.  Per §6 of the spec it satisfies standard
quaternion-rotation algebra with `q` assumed unit-norm by the caller and is
not renormalized internally: the standard rotation-matrix expansion of a
unit quaternion `(a, b, c, d)`. -/
def quatToRotation (q : Quat) : Mat3 :=
  let a := q.w
  let b := q.x
  let c := q.y
  let d := q.z
  ⟨a * a + b * b - c * c - d * d, 2 * (b * c - a * d), 2 * (a * c + b * d),
   2 * (a * d + b * c), a * a - b * b + c * c - d * d, 2 * (c * d - a * b),
   2 * (b * d - a * c), 2 * (a * b + c * d), a * a - b * b - c * c + d * d⟩

/-- A camera model: the length of its intrinsics vector is irrelevant to
this core, so intrinsics are an opaque type `α`; `WorldToImage` maps
intrinsics and normalized local coordinates to a pixel, exactly the
black-box role the `CameraModel` template parameter plays in the source. -/
def CamModel (α : Type) : Type :=
  α → ℚ → ℚ → ℚ × ℚ

namespace BundleAdjustmentCostFunction

/-- `BundleAdjustmentCostFunction<CameraModel>::operator()`, translated
line by line: rotate, translate (three `+=`), perspective-divide (two
`/=`), call `CameraModel::WorldToImage`, subtract the captured observation,
and return `true`. -/
def eval {α : Type} (cam : CamModel α) (point2D : Vec2) (qvec : Quat)
    (tvec : Vec3) (point3D : Vec3) (camera_params : α) : Vec2 × Bool :=
  let point3D_local0 := quatRotate qvec point3D
  let point3D_local1 : Vec3 :=
    ⟨point3D_local0.x + tvec.x, point3D_local0.y + tvec.y,
     point3D_local0.z + tvec.z⟩
  let point3D_local2 : Vec3 :=
    ⟨point3D_local1.x / point3D_local1.z, point3D_local1.y / point3D_local1.z,
     point3D_local1.z⟩
  let xy := cam camera_params point3D_local2.x point3D_local2.y
  (⟨xy.1 - point2D.x, xy.2 - point2D.y⟩, true)

/-- The residual dimension declared to the optimizer in `Create`:
`ceres::AutoDiffCostFunction<..., 2, 4, 3, 3, CameraModel::num_params>`. -/
def residualDim : ℕ := 2

/-- The ordered parameter-block sizes declared to the optimizer in
`Create`, with `numParams` the camera model's `num_params`. -/
def paramBlockSizes (numParams : ℕ) : List ℕ := [4, 3, 3, numParams]

end BundleAdjustmentCostFunction

namespace BundleAdjustmentConstantPoseCostFunction

/-- `BundleAdjustmentConstantPoseCostFunction<CameraModel>::operator()`:
the captured constant pose `qvec_`, `tvec_` is loaded into locals and the
same rotate–translate–divide–project–compare steps follow. -/
def eval {α : Type} (cam : CamModel α) (qvec_ : Quat) (tvec_ : Vec3)
    (point2D : Vec2) (point3D : Vec3) (camera_params : α) : Vec2 × Bool :=
  let qvec : Quat := ⟨qvec_.w, qvec_.x, qvec_.y, qvec_.z⟩
  let point3D_local0 := quatRotate qvec point3D
  let point3D_local1 : Vec3 :=
    ⟨point3D_local0.x + tvec_.x, point3D_local0.y + tvec_.y,
     point3D_local0.z + tvec_.z⟩
  let point3D_local2 : Vec3 :=
    ⟨point3D_local1.x / point3D_local1.z, point3D_local1.y / point3D_local1.z,
     point3D_local1.z⟩
  let xy := cam camera_params point3D_local2.x point3D_local2.y
  (⟨xy.1 - point2D.x, xy.2 - point2D.y⟩, true)

/-- Residual dimension from `Create`:
`ceres::AutoDiffCostFunction<..., 2, 3, CameraModel::num_params>`. -/
def residualDim : ℕ := 2

/-- Ordered parameter-block sizes from `Create`. -/
def paramBlockSizes (numParams : ℕ) : List ℕ := [3, numParams]

end BundleAdjustmentConstantPoseCostFunction

namespace RigBundleAdjustmentCostFunction

/-- `RigBundleAdjustmentCostFunction<CameraModel>::operator()`: compose the
rotations with `QuaternionProduct(rel_qvec, rig_qvec)`, compose the
translations with `UnitQuaternionRotatePoint(rel_qvec, rig_tvec)` plus
`rel_tvec`, then the standard rotate–translate–divide–project–compare. -/
def eval {α : Type} (cam : CamModel α) (point2D : Vec2) (rig_qvec : Quat)
    (rig_tvec : Vec3) (rel_qvec : Quat) (rel_tvec : Vec3) (point3D : Vec3)
    (camera_params : α) : Vec2 × Bool :=
  let qvec := quatProduct rel_qvec rig_qvec
  let tvec0 := quatRotate rel_qvec rig_tvec
  let tvec : Vec3 :=
    ⟨tvec0.x + rel_tvec.x, tvec0.y + rel_tvec.y, tvec0.z + rel_tvec.z⟩
  let point3D_local0 := quatRotate qvec point3D
  let point3D_local1 : Vec3 :=
    ⟨point3D_local0.x + tvec.x, point3D_local0.y + tvec.y,
     point3D_local0.z + tvec.z⟩
  let point3D_local2 : Vec3 :=
    ⟨point3D_local1.x / point3D_local1.z, point3D_local1.y / point3D_local1.z,
     point3D_local1.z⟩
  let xy := cam camera_params point3D_local2.x point3D_local2.y
  (⟨xy.1 - point2D.x, xy.2 - point2D.y⟩, true)

/-- Residual dimension from `Create`:
`ceres::AutoDiffCostFunction<..., 2, 4, 3, 4, 3, 3, num_params>`. -/
def residualDim : ℕ := 2

/-- Ordered parameter-block sizes from `Create`. -/
def paramBlockSizes (numParams : ℕ) : List ℕ := [4, 3, 4, 3, 3, numParams]

end RigBundleAdjustmentCostFunction

namespace RelativePoseCostFunction

/-- The essential matrix built inside
`RelativePoseCostFunction::operator()`: `E = t_x * R` with
`R = QuaternionToRotation(qvec)` and `t_x` the skew-symmetric matrix of
`tvec` as written in the source. -/
def essential (qvec : Quat) (tvec : Vec3) : Mat3 :=
  let R := quatToRotation qvec
  let t_x : Mat3 :=
    ⟨0, -tvec.z, tvec.y, tvec.z, 0, -tvec.x, -tvec.y, tvec.x, 0⟩
  t_x.mul R

/-- The numerator `x2tEx1 * x2tEx1` of the squared Sampson error. -/
def sampsonNum (qvec : Quat) (tvec : Vec3) (x1 x2 : Vec2) : ℚ :=
  let E := essential qvec tvec
  let x1_h : Vec3 := ⟨x1.x, x1.y, 1⟩
  let x2_h : Vec3 := ⟨x2.x, x2.y, 1⟩
  let Ex1 := E.mulVec x1_h
  let x2tEx1 := x2_h.dot Ex1
  x2tEx1 * x2tEx1

/-- The denominator
`Ex1(0)² + Ex1(1)² + Etx2(0)² + Etx2(1)²` of the squared Sampson error. -/
def sampsonDen (qvec : Quat) (tvec : Vec3) (x1 x2 : Vec2) : ℚ :=
  let E := essential qvec tvec
  let x1_h : Vec3 := ⟨x1.x, x1.y, 1⟩
  let x2_h : Vec3 := ⟨x2.x, x2.y, 1⟩
  let Ex1 := E.mulVec x1_h
  let Etx2 := E.transpose.mulVec x2_h
  Ex1.x * Ex1.x + Ex1.y * Ex1.y + Etx2.x * Etx2.x + Etx2.y * Etx2.y

/-- `RelativePoseCostFunction::operator()`: rotation matrix, skew matrix,
essential matrix, homogenized construction-time correspondences, and the
single squared-Sampson-error residual, returning `true`. -/
def eval (x1 x2 : Vec2) (qvec : Quat) (tvec : Vec3) : ℚ × Bool :=
  let R := quatToRotation qvec
  let t_x : Mat3 :=
    ⟨0, -tvec.z, tvec.y, tvec.z, 0, -tvec.x, -tvec.y, tvec.x, 0⟩
  let E := t_x.mul R
  let x1_h : Vec3 := ⟨x1.x, x1.y, 1⟩
  let x2_h : Vec3 := ⟨x2.x, x2.y, 1⟩
  let Ex1 := E.mulVec x1_h
  let Etx2 := E.transpose.mulVec x2_h
  let x2tEx1 := x2_h.dot Ex1
  (x2tEx1 * x2tEx1 / (Ex1.x * Ex1.x + Ex1.y * Ex1.y +
      Etx2.x * Etx2.x + Etx2.y * Etx2.y), true)

/-- Residual dimension from `Create`:
`ceres::AutoDiffCostFunction<RelativePoseCostFunction, 1, 4, 3>`. -/
def residualDim : ℕ := 1

/-- Ordered parameter-block sizes from `Create`. -/
def paramBlockSizes : List ℕ := [4, 3]

end RelativePoseCostFunction

/-- Left multiplication by the identity quaternion `(1,0,0,0)` is the
identity, a fact of the modelled quaternion product used below. -/
theorem quatProduct_id_left (q : Quat) : quatProduct ⟨1, 0, 0, 0⟩ q = q := by
  cases q
  simp [quatProduct]

/-- Rotating by the identity quaternion `(1,0,0,0)` leaves the vector
unchanged. -/
theorem quatRotate_id (v : Vec3) : quatRotate ⟨1, 0, 0, 0⟩ v = v := by
  cases v
  simp [quatRotate]

/-- The Sampson residual written by `RelativePoseCostFunction::operator()`
is the quotient of `sampsonNum` by `sampsonDen`. -/
theorem relativePose_eval_fst (x1 x2 : Vec2) (q : Quat) (t : Vec3) :
    (RelativePoseCostFunction.eval x1 x2 q t).1 =
      RelativePoseCostFunction.sampsonNum q t x1 x2 /
        RelativePoseCostFunction.sampsonDen q t x1 x2 := rfl

/-- Scaling the translation by `s` scales the Sampson numerator by `s²`. -/
theorem sampsonNum_smul (q : Quat) (t : Vec3) (x1 x2 : Vec2) (s : ℚ) :
    RelativePoseCostFunction.sampsonNum q (Vec3.smul s t) x1 x2 =
      s ^ 2 * RelativePoseCostFunction.sampsonNum q t x1 x2 := by
  simp only [RelativePoseCostFunction.sampsonNum,
    RelativePoseCostFunction.essential, quatToRotation, Mat3.mul, Mat3.mulVec,
    Vec3.dot, Vec3.smul]
  ring

/-- Scaling the translation by `s` scales the Sampson denominator by `s²`. -/
theorem sampsonDen_smul (q : Quat) (t : Vec3) (x1 x2 : Vec2) (s : ℚ) :
    RelativePoseCostFunction.sampsonDen q (Vec3.smul s t) x1 x2 =
      s ^ 2 * RelativePoseCostFunction.sampsonDen q t x1 x2 := by
  simp only [RelativePoseCostFunction.sampsonDen,
    RelativePoseCostFunction.essential, quatToRotation, Mat3.mul, Mat3.mulVec,
    Mat3.transpose, Vec3.dot, Vec3.smul]
  ring

/-- C1: For every orientation quaternion `q`, translation `t`, 3D point
`X`, and intrinsics `params`, `BundleAdjustmentCostFunction::operator()`
computes the camera-frame point `P = rotate(q, X) + t`, forms local
coordinates `(P.x/P.z, P.y/P.z)` with no guard on `P.z`, passes them with
`params` to `CameraModel::WorldToImage` to obtain a predicted pixel
`(x, y)`, and writes the residual `(x − obs.x, y − obs.y)` for the
construction-time observation `obs`. -/
theorem C1_reprojection_pipeline {α : Type} (cam : CamModel α) (obs : Vec2)
    (q : Quat) (t : Vec3) (X : Vec3) (params : α) :
    BundleAdjustmentCostFunction.eval cam obs q t X params =
      (let P := (quatRotate q X).add t
       let xy := cam params (P.x / P.z) (P.y / P.z)
       (⟨xy.1 - obs.x, xy.2 - obs.y⟩, true)) := rfl

/-- C2: `RelativePoseCostFunction::operator()` computes
`R = quaternionToRotationMatrix(q)`, the skew matrix `[t]ₓ`, the essential
matrix `E = [t]ₓ · R`, homogenizes the construction-time correspondences,
and writes the single residual `n² / (Ex1.x² + Ex1.y² + Etx2.x² + Etx2.y²)`
with `Ex1 = E·x1_h`, `Etx2 = Eᵀ·x2_h`, `n = x2_hᵀ·E·x1_h`. -/
theorem C2_sampson_formula (x1 x2 : Vec2) (q : Quat) (t : Vec3) :
    RelativePoseCostFunction.eval x1 x2 q t =
      (let R := quatToRotation q
       let t_x : Mat3 :=
         ⟨0, -t.z, t.y, t.z, 0, -t.x, -t.y, t.x, 0⟩
       let E := t_x.mul R
       let x1_h : Vec3 := ⟨x1.x, x1.y, 1⟩
       let x2_h : Vec3 := ⟨x2.x, x2.y, 1⟩
       let Ex1 := E.mulVec x1_h
       let Etx2 := E.transpose.mulVec x2_h
       let n := x2_h.dot Ex1
       (n * n / (Ex1.x * Ex1.x + Ex1.y * Ex1.y +
           Etx2.x * Etx2.x + Etx2.y * Etx2.y), true)) := rfl

/-- C3: `RigBundleAdjustmentCostFunction::operator()` forms
`combinedOrientation = quaternionProduct(rel_qvec, rig_qvec)` and
`combinedTranslation = rotate(rel_qvec, rig_tvec) + rel_tvec` and then
applies exactly the rotate–translate–perspective-divide–project–compare
pipeline of the standard cost function with that combined pose. -/
theorem C3_rig_composition {α : Type} (cam : CamModel α) (obs : Vec2)
    (rig_q : Quat) (rig_t : Vec3) (rel_q : Quat) (rel_t : Vec3) (X : Vec3)
    (params : α) :
    RigBundleAdjustmentCostFunction.eval cam obs rig_q rig_t rel_q rel_t X
        params =
      BundleAdjustmentCostFunction.eval cam obs (quatProduct rel_q rig_q)
        ((quatRotate rel_q rig_t).add rel_t) X params := rfl

/-- C4: evaluating the rig cost function with the identity relative
orientation `(1,0,0,0)` and zero relative translation produces exactly the
residual of the standard cost function at the rig pose. -/
theorem C4_rig_identity_equiv {α : Type} (cam : CamModel α) (obs : Vec2)
    (rig_q : Quat) (rig_t : Vec3) (X : Vec3) (params : α) :
    RigBundleAdjustmentCostFunction.eval cam obs rig_q rig_t ⟨1, 0, 0, 0⟩
        ⟨0, 0, 0⟩ X params =
      BundleAdjustmentCostFunction.eval cam obs rig_q rig_t X params := by
  simp only [RigBundleAdjustmentCostFunction.eval,
    BundleAdjustmentCostFunction.eval, quatProduct_id_left, quatRotate_id,
    add_zero]

/-- C5: the constant-pose cost function constructed with pose `(q, t)`
produces exactly the residual of the standard cost function evaluated at
the variable parameters `(q, t)` for the same observation, point and
intrinsics. -/
theorem C5_constant_pose_equiv {α : Type} (cam : CamModel α) (q : Quat)
    (t : Vec3) (obs : Vec2) (X : Vec3) (params : α) :
    BundleAdjustmentConstantPoseCostFunction.eval cam q t obs X params =
      BundleAdjustmentCostFunction.eval cam obs q t X params := rfl

/-- C6: for every relative pose `(q, t)` and correspondences `x1, x2`
satisfying the exact epipolar constraint `x2_hᵀ · ([t]ₓ · R) · x1_h = 0`
with `R` the rotation matrix of `q`, the Sampson residual is `0`. -/
theorem C6_epipolar_zero (q : Quat) (t : Vec3) (x1 x2 : Vec2)
    (h : (Vec3.mk x2.x x2.y 1).dot
        ((Mat3.mul ⟨0, -t.z, t.y, t.z, 0, -t.x, -t.y, t.x, 0⟩
            (quatToRotation q)).mulVec ⟨x1.x, x1.y, 1⟩) = 0) :
    (RelativePoseCostFunction.eval x1 x2 q t).1 = 0 := by
  have hnum : RelativePoseCostFunction.sampsonNum q t x1 x2 = 0 := by
    simp only [RelativePoseCostFunction.sampsonNum,
      RelativePoseCostFunction.essential]
    rw [h]
    ring
  rw [relativePose_eval_fst, hnum, zero_div]

/-- Witness for C6 at the concrete pose `q = (1,0,0,0)`, `t = (1,0,0)` and
correspondences `x1 = (0,1)`, `x2 = (5,1)`, which satisfy the epipolar
constraint exactly. -/
theorem C6_epipolar_zero_witness :
    (Vec3.mk (5 : ℚ) 1 1).dot
        ((Mat3.mul ⟨0, 0, 0, 0, 0, -1, 0, 1, 0⟩
            (quatToRotation ⟨1, 0, 0, 0⟩)).mulVec ⟨0, 1, 1⟩) = 0 ∧
      (RelativePoseCostFunction.eval ⟨0, 1⟩ ⟨5, 1⟩ ⟨1, 0, 0, 0⟩
          ⟨1, 0, 0⟩).1 = 0 := by
  refine ⟨by norm_num [Vec3.dot, Mat3.mul, Mat3.mulVec, quatToRotation],
    C6_epipolar_zero ⟨1, 0, 0, 0⟩ ⟨1, 0, 0⟩ ⟨0, 1⟩ ⟨5, 1⟩
      (by norm_num [Vec3.dot, Mat3.mul, Mat3.mulVec, quatToRotation])⟩

/-- C7: the evaluator applies no unit-norm constraint to the translation:
for every nonzero scalar `s` the residual at `(q, s·t)` equals the residual
at `(q, t)` (all intermediate quantities rescale and the scale cancels), so
in particular it is zero exactly when the residual at `(q, t)` is zero. -/
theorem C7_translation_scale (q : Quat) (t : Vec3) (x1 x2 : Vec2) (s : ℚ)
    (hs : s ≠ 0) :
    (RelativePoseCostFunction.eval x1 x2 q (Vec3.smul s t)).1 =
        (RelativePoseCostFunction.eval x1 x2 q t).1 ∧
      ((RelativePoseCostFunction.eval x1 x2 q (Vec3.smul s t)).1 = 0 ↔
        (RelativePoseCostFunction.eval x1 x2 q t).1 = 0) := by
  have hs2 : s ^ 2 ≠ 0 := pow_ne_zero 2 hs
  have heq : (RelativePoseCostFunction.eval x1 x2 q (Vec3.smul s t)).1 =
      (RelativePoseCostFunction.eval x1 x2 q t).1 := by
    rw [relativePose_eval_fst, relativePose_eval_fst, sampsonNum_smul,
      sampsonDen_smul, mul_div_mul_left _ _ hs2]
  exact ⟨heq, by rw [heq]⟩

/-- Witness for C7 at the concrete scale `s = 3`, pose `q = (1,0,0,0)`,
`t = (0,0,1)` and correspondences `x1 = (1,2)`, `x2 = (0,0)`. -/
theorem C7_translation_scale_witness :
    (3 : ℚ) ≠ 0 ∧
      ((RelativePoseCostFunction.eval ⟨1, 2⟩ ⟨0, 0⟩ ⟨1, 0, 0, 0⟩
            (Vec3.smul 3 ⟨0, 0, 1⟩)).1 =
          (RelativePoseCostFunction.eval ⟨1, 2⟩ ⟨0, 0⟩ ⟨1, 0, 0, 0⟩
            ⟨0, 0, 1⟩).1 ∧
        ((RelativePoseCostFunction.eval ⟨1, 2⟩ ⟨0, 0⟩ ⟨1, 0, 0, 0⟩
              (Vec3.smul 3 ⟨0, 0, 1⟩)).1 = 0 ↔
          (RelativePoseCostFunction.eval ⟨1, 2⟩ ⟨0, 0⟩ ⟨1, 0, 0, 0⟩
            ⟨0, 0, 1⟩).1 = 0)) :=
  ⟨by norm_num,
   C7_translation_scale ⟨1, 0, 0, 0⟩ ⟨0, 0, 1⟩ ⟨1, 2⟩ ⟨0, 0⟩ 3 (by norm_num)⟩

/-- C8: each residual type declares to the optimizer the residual
dimensionality and the ordered parameter-block sizes given in its `Create`
factory: `(2; 4,3,3,n)`, `(2; 3,n)`, `(2; 4,3,4,3,3,n)` and `(1; 4,3)`. -/
theorem C8_block_sizes (numParams : ℕ) :
    (BundleAdjustmentCostFunction.residualDim = 2 ∧
      BundleAdjustmentCostFunction.paramBlockSizes numParams =
        [4, 3, 3, numParams]) ∧
    (BundleAdjustmentConstantPoseCostFunction.residualDim = 2 ∧
      BundleAdjustmentConstantPoseCostFunction.paramBlockSizes numParams =
        [3, numParams]) ∧
    (RigBundleAdjustmentCostFunction.residualDim = 2 ∧
      RigBundleAdjustmentCostFunction.paramBlockSizes numParams =
        [4, 3, 4, 3, 3, numParams]) ∧
    (RelativePoseCostFunction.residualDim = 1 ∧
      RelativePoseCostFunction.paramBlockSizes = [4, 3]) :=
  ⟨⟨rfl, rfl⟩, ⟨rfl, rfl⟩, ⟨rfl, rfl⟩, ⟨rfl, rfl⟩⟩

/-- C9: every one of the four residual evaluators returns the success flag
`true` on every input, including degenerate ones; no evaluation path
reports failure or leaves the residual unwritten. -/
theorem C9_always_success :
    (∀ (α : Type) (cam : CamModel α) (obs : Vec2) (q : Quat) (t X : Vec3)
        (p : α), (BundleAdjustmentCostFunction.eval cam obs q t X p).2 = true) ∧
    (∀ (α : Type) (cam : CamModel α) (q : Quat) (t : Vec3) (obs : Vec2)
        (X : Vec3) (p : α),
        (BundleAdjustmentConstantPoseCostFunction.eval cam q t obs X p).2 =
          true) ∧
    (∀ (α : Type) (cam : CamModel α) (obs : Vec2) (rq : Quat) (rt : Vec3)
        (sq : Quat) (st X : Vec3) (p : α),
        (RigBundleAdjustmentCostFunction.eval cam obs rq rt sq st X p).2 =
          true) ∧
    (∀ (x1 x2 : Vec2) (q : Quat) (t : Vec3),
        (RelativePoseCostFunction.eval x1 x2 q t).2 = true) :=
  ⟨fun _ _ _ _ _ _ _ => rfl, fun _ _ _ _ _ _ _ => rfl,
   fun _ _ _ _ _ _ _ _ _ => rfl, fun _ _ _ _ => rfl⟩

/-- C10: whenever the Sampson denominator is nonzero, the single residual
component is nonnegative: the numerator is a square and the denominator a
sum of squares. -/
theorem C10_sampson_nonneg (q : Quat) (t : Vec3) (x1 x2 : Vec2)
    (h : RelativePoseCostFunction.sampsonDen q t x1 x2 ≠ 0) :
    0 ≤ (RelativePoseCostFunction.eval x1 x2 q t).1 := by
  rw [relativePose_eval_fst]
  refine div_nonneg (mul_self_nonneg _) ?_
  simp only [RelativePoseCostFunction.sampsonDen]
  have h1 := mul_self_nonneg ((RelativePoseCostFunction.essential q t).mulVec
    ⟨x1.x, x1.y, 1⟩).x
  have h2 := mul_self_nonneg ((RelativePoseCostFunction.essential q t).mulVec
    ⟨x1.x, x1.y, 1⟩).y
  have h3 := mul_self_nonneg
    ((RelativePoseCostFunction.essential q t).transpose.mulVec
      ⟨x2.x, x2.y, 1⟩).x
  have h4 := mul_self_nonneg
    ((RelativePoseCostFunction.essential q t).transpose.mulVec
      ⟨x2.x, x2.y, 1⟩).y
  linarith

/-- Witness for C10 at the concrete pose `q = (1,0,0,0)`, `t = (0,0,1)`
and correspondences `x1 = (1,2)`, `x2 = (3,4)`, where the Sampson
denominator is nonzero. -/
theorem C10_sampson_nonneg_witness :
    RelativePoseCostFunction.sampsonDen ⟨1, 0, 0, 0⟩ ⟨0, 0, 1⟩ ⟨1, 2⟩
        ⟨3, 4⟩ ≠ 0 ∧
      0 ≤ (RelativePoseCostFunction.eval ⟨1, 2⟩ ⟨3, 4⟩ ⟨1, 0, 0, 0⟩
          ⟨0, 0, 1⟩).1 :=
  ⟨by norm_num [RelativePoseCostFunction.sampsonDen,
      RelativePoseCostFunction.essential, quatToRotation, Mat3.mul,
      Mat3.mulVec, Mat3.transpose],
   C10_sampson_nonneg ⟨1, 0, 0, 0⟩ ⟨0, 0, 1⟩ ⟨1, 2⟩ ⟨3, 4⟩
     (by norm_num [RelativePoseCostFunction.sampsonDen,
        RelativePoseCostFunction.essential, quatToRotation, Mat3.mul,
        Mat3.mulVec, Mat3.transpose])⟩

end Colmap
